import Mathlib

/-!
Verification development for the xsync transactional scope
(src/ext/xsync/include/scope.hpp).

The header implements an RAII wrapper `XScope<LockType>` for hardware
lock elision: `enter` tries to run the critical section inside a
hardware transaction (Intel RTM style), retrying a bounded number of
times, and falls back to acquiring an ordinary lock; `exit` terminates
the critical section and fires the registered commit callbacks.

Embedding notes.
* The lock state is an abstract type `σ`; an `XScope.Iface σ` packages
  the three specializable member functions of the template
  (`isFallbackLocked`, `lockFallback`, `unlockFallback`).  The generic
  (non-specialized) members of the source — `isFallbackLocked` returning
  `false`, `lockFallback`/`unlockFallback` delegating to the
  BasicLockable — are `genericIface`.
* The hardware transactional-memory facility is not part of src; its
  status word is modelled from the spec ("begin/commit/explicit-abort
  -with-code/retry-hint query"), with the standard RTM encoding used by
  the header's names: `_XBEGIN_STARTED` is the all-ones 32-bit value,
  bit 0 is the explicit-abort flag, bit 1 the retry hint, and bits
  24..31 carry the 8-bit explicit abort code.
* `enter` is driven by an environment `env : Nat → Nat` giving the
  status delivered by the i-th executed XBEGIN.  When the transaction
  starts and the scope itself executes `_xabort(0xFF)`, execution
  resumes at the same XBEGIN with a deterministic explicit-abort status
  carrying code 0xFF (`contentionStatus`); this stays inside the same
  loop iteration and consumes no new environment element, exactly as in
  the hardware, where XBEGIN is executed once per iteration.
* Every run produces a list of observable `Event`s so that claims about
  ordering (waits, fallback acquisition, callbacks) are statements about
  the trace.
-/

namespace xsync

/-- Modelled from the spec: the consumed hardware TM interface's
"transaction started" status value (standard RTM `_XBEGIN_STARTED`,
the all-ones 32-bit unsigned value). -/
def XBEGIN_STARTED : Nat := 4294967295

/-- Modelled from the spec: status-word flag "this abort was an explicit
abort" (standard RTM `_XABORT_EXPLICIT`, bit 0). -/
def XABORT_EXPLICIT : Nat := 1

/-- Modelled from the spec: status-word retry hint "retrying is likely to
succeed" (standard RTM `_XABORT_RETRY`, bit 1). -/
def XABORT_RETRY : Nat := 2

/-- Modelled from the spec: the 8-bit explicit abort code carried in bits
24..31 of the status word (standard RTM `_XABORT_CODE`). -/
def XABORT_CODE (x : Nat) : Nat := (x >>> 24) &&& 255

/-- Modelled from the spec: the status delivered when the scope itself
executes `_xabort(0xFF)` — explicit-abort flag set and code 0xFF.  (The
hardware may or may not also set the retry hint on an explicit abort;
the header tests the explicit-abort/code condition first, so the value
of that bit is irrelevant here and it is left clear.) -/
def contentionStatus : Nat := XABORT_EXPLICIT + 255 * 2 ^ 24

/-- Observable events of a scope run. -/
inductive Event where
  | xbegin (status : Nat)
  | queryLock (held : Bool)
  | xabortEv (code : Nat)
  | lockAcq
  | lockRel
  | xendEv
  | callback (i : Nat)
  deriving DecidableEq

/-- The two terminal modes of `enter` (spec: "transactional" or
"locked"). -/
inductive Mode where
  | transactional
  | locked
  deriving DecidableEq

namespace XScope

/-- The three specializable member functions of `XScope<LockType>`
(scope.hpp lines 35-40), as operations on an abstract lock state. -/
structure Iface (σ : Type) where
  isFallbackLocked : σ → Bool
  lockFallback : σ → σ
  unlockFallback : σ → σ

/-- A BasicLockable lock, as used by the generic members. -/
structure BasicLockable (σ : Type) where
  lock : σ → σ
  unlock : σ → σ

/-- The non-specialized members of the template: `isFallbackLocked`
returns `false` unconditionally (scope.hpp lines 35-37), and
`lockFallback`/`unlockFallback` delegate to the BasicLockable
(lines 39-40). -/
def genericIface (L : BasicLockable σ) : Iface σ :=
  { isFallbackLocked := fun _ => false
    lockFallback := L.lock
    unlockFallback := L.unlock }

/-- Outcome of one loop iteration of `enter`: return in transactional
mode, continue with the next attempt, or break out to the fallback. -/
inductive StepOut (σ : Type) where
  | ret (s : σ) (tr : List Event)
  | cont (s : σ) (tr : List Event)
  | brk (s : σ) (tr : List Event)

/-- The trace of events produced by one iteration outcome. -/
def StepOut.trace : StepOut σ → List Event
  | StepOut.ret _ tr => tr
  | StepOut.cont _ tr => tr
  | StepOut.brk _ tr => tr

/-- Prepend events to an iteration outcome's trace. -/
def StepOut.withTr (pre : List Event) : StepOut σ → StepOut σ
  | StepOut.ret s tr => StepOut.ret s (pre ++ tr)
  | StepOut.cont s tr => StepOut.cont s (pre ++ tr)
  | StepOut.brk s tr => StepOut.brk s (pre ++ tr)

/-- The contention test of scope.hpp line 62:
`(xact_status & _XABORT_EXPLICIT) && _XABORT_CODE(xact_status) == 0xFF`. -/
def isContentionAbort (st : Nat) : Bool :=
  st &&& XABORT_EXPLICIT != 0 && XABORT_CODE st == 255

/-- The abort-classification chain of scope.hpp lines 60-71: a contention
abort waits for the lock (acquire, then immediately release) and
continues; otherwise, if the retry hint is clear the loop breaks; else
the loop just continues. -/
def abortStep (sc : Iface σ) (s : σ) (st : Nat) : StepOut σ :=
  if isContentionAbort st then
    StepOut.cont (sc.unlockFallback (sc.lockFallback s))
      [Event.lockAcq, Event.lockRel]
  else if st &&& XABORT_RETRY == 0 then
    StepOut.brk s []
  else
    StepOut.cont s []

/-- One iteration of the retry loop of `enter` (scope.hpp lines 46-72),
given the status `st` delivered by this iteration's XBEGIN.  If the
transaction started and the fallback is not observed locked, `enter`
returns in transactional mode; if it is observed locked, the scope
executes `_xabort(0xFF)` and the same iteration resumes at the XBEGIN
with `contentionStatus`, which the abort chain then classifies. -/
def attemptStep (sc : Iface σ) (s : σ) (st : Nat) : StepOut σ :=
  if st == XBEGIN_STARTED then
    if sc.isFallbackLocked s then
      (abortStep sc s contentionStatus).withTr
        [Event.xbegin st, Event.queryLock true, Event.xabortEv 255]
    else
      StepOut.ret s [Event.xbegin st, Event.queryLock false]
  else
    (abortStep sc s st).withTr [Event.xbegin st]

/-- The retry loop of `enter` with an explicit fuel: fuel 0 means the
loop condition `attempt <= nretries` failed (or a break occurred), so
the unconditional fallback of scope.hpp line 75 runs: acquire the lock
and finish in locked mode.  `i` is the index of the next XBEGIN in the
environment. -/
def enterGo (sc : Iface σ) (env : Nat → Nat) :
    Nat → Nat → σ → Mode × σ × List Event
  | 0, _, s => (Mode.locked, sc.lockFallback s, [Event.lockAcq])
  | fuel + 1, i, s =>
    match attemptStep sc s (env i) with
    | StepOut.ret s2 tr => (Mode.transactional, s2, tr)
    | StepOut.brk s2 tr => (Mode.locked, sc.lockFallback s2, tr ++ [Event.lockAcq])
    | StepOut.cont s2 tr =>
      let r := enterGo sc env fuel (i + 1) s2
      (r.1, r.2.1, tr ++ r.2.2)

/-- `XScope::enter(int nretries = 3)` (scope.hpp lines 43-76).  The C++
for-loop `for (int attempt = 0; attempt <= nretries; ++attempt)` runs at
most `max 0 (nretries + 1)` iterations, which is `(nretries + 1).toNat`
for the `int` parameter modelled as `Int`. -/
def enter (sc : Iface σ) (nretries : Int) (env : Nat → Nat) (s : σ) :
    Mode × σ × List Event :=
  enterGo sc env (nretries + 1).toNat 0 s

/-- The constructor `XScope(LockType& fallback)` (scope.hpp line 27): it
takes only the fallback-lock reference and runs `enter()` with the
declaration's default argument, `nretries = 3`. -/
def construct (sc : Iface σ) (env : Nat → Nat) (s : σ) :
    Mode × σ × List Event :=
  enter sc 3 env s

/-- `XScope::registerCommitCallback` (scope.hpp lines 92-94): appends the
handler to the owned sequence `cbs_`.  Handlers are identified by `Nat`
ids. -/
def registerCommitCallback (cbs : List Nat) (cb : Nat) : List Nat :=
  cbs ++ [cb]

/-- `XScope::exit` (scope.hpp lines 78-89): if `isFallbackLocked()`
reports the lock held, release it, otherwise commit the transaction with
`_xend()`; then run every registered callback, in sequence order. -/
def exit (sc : Iface σ) (s : σ) (cbs : List Nat) : σ × List Event :=
  if sc.isFallbackLocked s then
    (sc.unlockFallback s, Event.lockRel :: cbs.map Event.callback)
  else
    (s, Event.xendEv :: cbs.map Event.callback)

end XScope

/-- Number of events of a trace satisfying a predicate. -/
def countEv (p : Event → Bool) (tr : List Event) : Nat :=
  (tr.filter p).length

/-- Recognizer for XBEGIN events (one per executed transaction-begin
attempt). -/
def isXbeginEv : Event → Bool
  | Event.xbegin _ => true
  | _ => false

/-- Recognizer for blocking lock acquisitions. -/
def isLockAcqEv : Event → Bool
  | Event.lockAcq => true
  | _ => false

/-- Recognizer for lock-liveness queries. -/
def isQueryEv : Event → Bool
  | Event.queryLock _ => true
  | _ => false

/-- A concrete single-thread lock state: `true` when this scope holds the
lock.  Used for closed evaluations. -/
def boolLock : XScope.BasicLockable Bool :=
  { lock := fun _ => true, unlock := fun _ => false }

/-- The in-tree instantiation over `boolLock`: all members generic, so
`isFallbackLocked` always reports not held. -/
def boolScope : XScope.Iface Bool := XScope.genericIface boolLock

end xsync


namespace xsync

theorem countEv_append (p : Event → Bool) (a b : List Event) :
    countEv p (a ++ b) = countEv p a + countEv p b := by
  simp [countEv, List.filter_append]

theorem isContentionAbort_iff (st : Nat) :
    XScope.isContentionAbort st = true ↔
      (st &&& XABORT_EXPLICIT ≠ 0 ∧ XABORT_CODE st = 255) := by
  simp [XScope.isContentionAbort, Bool.and_eq_true, bne_iff_ne, beq_iff_eq]

theorem isContentionAbort_contentionStatus :
    XScope.isContentionAbort contentionStatus = true := by decide

theorem abortStep_contention (sc : XScope.Iface σ) (s : σ) (st : Nat)
    (h : XScope.isContentionAbort st = true) :
    XScope.abortStep sc s st =
      XScope.StepOut.cont (sc.unlockFallback (sc.lockFallback s))
        [Event.lockAcq, Event.lockRel] := by
  simp [XScope.abortStep, h]

theorem withTr_trace (pre : List Event) (x : XScope.StepOut σ) :
    (x.withTr pre).trace = pre ++ x.trace := by
  cases x <;> simp [XScope.StepOut.withTr, XScope.StepOut.trace]

theorem attemptStep_counts (sc : XScope.Iface σ) (s : σ) (st : Nat) :
    countEv isXbeginEv (XScope.attemptStep sc s st).trace ≤ 1 ∧
    countEv isLockAcqEv (XScope.attemptStep sc s st).trace ≤ 1 := by
  unfold XScope.attemptStep
  split
  · split
    · rw [abortStep_contention sc s contentionStatus
        isContentionAbort_contentionStatus]
      simp [XScope.StepOut.withTr, XScope.StepOut.trace, countEv,
        isXbeginEv, isLockAcqEv]
    · simp [XScope.StepOut.trace, countEv, isXbeginEv, isLockAcqEv]
  · unfold XScope.abortStep
    split
    · simp [XScope.StepOut.withTr, XScope.StepOut.trace, countEv,
        isXbeginEv, isLockAcqEv]
    · split <;>
        simp [XScope.StepOut.withTr, XScope.StepOut.trace, countEv,
          isXbeginEv, isLockAcqEv]

theorem enterGo_counts (sc : XScope.Iface σ) (env : Nat → Nat) :
    ∀ (fuel i : Nat) (s : σ),
      countEv isXbeginEv (XScope.enterGo sc env fuel i s).2.2 ≤ fuel ∧
      countEv isLockAcqEv (XScope.enterGo sc env fuel i s).2.2 ≤ fuel + 1 := by
  intro fuel
  induction fuel with
  | zero =>
    intro i s
    simp [XScope.enterGo, countEv, isXbeginEv, isLockAcqEv]
  | succ fuel ih =>
    intro i s
    have hstep := attemptStep_counts sc s (env i)
    rcases hcase : XScope.attemptStep sc s (env i) with
      ⟨s2, tr⟩ | ⟨s2, tr⟩ | ⟨s2, tr⟩ <;>
      rw [hcase] at hstep <;>
      simp only [XScope.StepOut.trace] at hstep
    · simp only [XScope.enterGo, hcase]
      exact ⟨hstep.1.trans (by omega), hstep.2.trans (by omega)⟩
    · have hrec := ih (i + 1) s2
      simp only [XScope.enterGo, hcase, countEv_append]
      omega
    · simp only [XScope.enterGo, hcase, countEv_append]
      have hone : countEv isXbeginEv [Event.lockAcq] = 0 ∧
          countEv isLockAcqEv [Event.lockAcq] = 1 := by
        simp [countEv, isXbeginEv, isLockAcqEv]
      omega

theorem foldl_registerCommitCallback :
    ∀ (hs acc : List Nat),
      hs.foldl XScope.registerCommitCallback acc = acc ++ hs := by
  intro hs
  induction hs with
  | nil => simp
  | cons h t ih =>
    intro acc
    simp [List.foldl_cons, XScope.registerCommitCallback, ih]

end xsync

namespace xsync

/-- C1: with the in-tree generic members — whose isFallbackLocked
conservatively always reports not held (scope.hpp lines 35-37) — a scope
whose enter() ended by acquiring the fallback lock (here: nretries 0 and
a conflict abort, status 4, without retry hint) finishes in locked mode
with the lock held, yet exit() then takes the transactional branch: it
issues _xend and never releases the fallback lock.  The mode acted on at
exit is decided by re-querying isFallbackLocked, not by the mode fixed
at entry, contradicting the spec's exit contract. -/
theorem C1_generic_locked_exit_eval :
    XScope.enter boolScope 0 (fun _ => 4) false =
      (Mode.locked, true, [Event.xbegin 4, Event.lockAcq]) ∧
    XScope.exit boolScope true [] = (true, [Event.xendEv]) ∧
    Event.lockRel ∉ (XScope.exit boolScope true []).2 := by
  refine ⟨rfl, rfl, ?_⟩
  decide

/-- C2: when the i-th XBEGIN of an entry starts the transaction (here the
first, with at least one attempt available): if the fallback is queried
as not held, enter returns immediately in transactional mode with no
lock event and the lock state untouched; if it is queried as held, enter
explicitly aborts with the single reserved contention code 0xFF. -/
theorem C2_started_attempt (sc : XScope.Iface σ) (s : σ) (env : Nat → Nat)
    (n : Int) (h0 : env 0 = XBEGIN_STARTED) (hn : 0 ≤ n) :
    (sc.isFallbackLocked s = false →
      XScope.enter sc n env s =
        (Mode.transactional, s,
          [Event.xbegin XBEGIN_STARTED, Event.queryLock false])) ∧
    (sc.isFallbackLocked s = true →
      ∃ rest, (XScope.enter sc n env s).2.2 =
        Event.xbegin XBEGIN_STARTED :: Event.queryLock true ::
          Event.xabortEv 255 :: rest) := by
  have hfuel : (n + 1).toNat = n.toNat + 1 := by omega
  unfold XScope.enter
  rw [hfuel]
  constructor
  · intro hfree
    have hstep : XScope.attemptStep sc s (env 0) =
        XScope.StepOut.ret s
          [Event.xbegin XBEGIN_STARTED, Event.queryLock false] := by
      rw [h0]
      unfold XScope.attemptStep
      rw [if_pos (by simp), if_neg (by simp [hfree])]
    simp only [XScope.enterGo, hstep]
  · intro hheld
    have hstep : XScope.attemptStep sc s (env 0) =
        XScope.StepOut.cont (sc.unlockFallback (sc.lockFallback s))
          [Event.xbegin XBEGIN_STARTED, Event.queryLock true,
            Event.xabortEv 255, Event.lockAcq, Event.lockRel] := by
      rw [h0]
      unfold XScope.attemptStep
      rw [if_pos (by simp), if_pos hheld,
        abortStep_contention sc s contentionStatus
          isContentionAbort_contentionStatus]
      simp [XScope.StepOut.withTr]
    refine ⟨Event.lockAcq :: Event.lockRel ::
      (XScope.enterGo sc env n.toNat 1
        (sc.unlockFallback (sc.lockFallback s))).2.2, ?_⟩
    simp only [XScope.enterGo, hstep]
    simp

/-- C2 witness: a concrete started attempt over the generic boolean lock
returns transactionally at once. -/
theorem C2_started_attempt_witness :
    ((fun _ : Nat => XBEGIN_STARTED) 0 = XBEGIN_STARTED) ∧ (0 : Int) ≤ 3 ∧
    XScope.enter boolScope 3 (fun _ => XBEGIN_STARTED) false =
      (Mode.transactional, false,
        [Event.xbegin XBEGIN_STARTED, Event.queryLock false]) :=
  ⟨rfl, by decide,
    (C2_started_attempt boolScope false (fun _ => XBEGIN_STARTED) 3 rfl
      (by decide)).1 rfl⟩

/-- C3 counterexample: a contention abort observed on the final attempt
(nretries 0) performs the wait (acquire then release) and then falls
back — enter acquires the fallback lock and finishes in locked mode
after a single XBEGIN, with no next retry attempt, contrary to the
claim's "proceeds to the next retry attempt rather than falling back". -/
theorem C3_final_attempt_contention_falls_back :
    (XScope.enter boolScope 0 (fun _ => contentionStatus) false).2.2 =
      [Event.xbegin contentionStatus, Event.lockAcq, Event.lockRel,
        Event.lockAcq] ∧
    (XScope.enter boolScope 0 (fun _ => contentionStatus) false).1 =
      Mode.locked ∧
    countEv isXbeginEv
      (XScope.enter boolScope 0 (fun _ => contentionStatus) false).2.2 = 1 :=
  ⟨rfl, rfl, rfl⟩

/-- C3 (amended): an abort observed with the explicit bit set and the
reserved code 0xFF makes enter acquire and immediately release the
fallback lock and then continue the loop: with attempts remaining the
run continues with the next XBEGIN (second conjunct specializes to the
final attempt, where the loop exhausts and enter falls back). -/
theorem C3_contention_wait_then_loop (sc : XScope.Iface σ)
    (env : Nat → Nat) (i fuel : Nat) (s : σ)
    (hne : env i ≠ XBEGIN_STARTED)
    (hex : env i &&& XABORT_EXPLICIT ≠ 0)
    (hcode : XABORT_CODE (env i) = 255) :
    XScope.enterGo sc env (fuel + 1) i s =
      ((XScope.enterGo sc env fuel (i + 1)
          (sc.unlockFallback (sc.lockFallback s))).1,
       (XScope.enterGo sc env fuel (i + 1)
          (sc.unlockFallback (sc.lockFallback s))).2.1,
       Event.xbegin (env i) :: Event.lockAcq :: Event.lockRel ::
         (XScope.enterGo sc env fuel (i + 1)
            (sc.unlockFallback (sc.lockFallback s))).2.2) ∧
    XScope.enterGo sc env 1 i s =
      (Mode.locked,
       sc.lockFallback (sc.unlockFallback (sc.lockFallback s)),
       [Event.xbegin (env i), Event.lockAcq, Event.lockRel,
         Event.lockAcq]) := by
  have hca : XScope.isContentionAbort (env i) = true :=
    (isContentionAbort_iff (env i)).2 ⟨hex, hcode⟩
  have hstep : XScope.attemptStep sc s (env i) =
      XScope.StepOut.cont (sc.unlockFallback (sc.lockFallback s))
        [Event.xbegin (env i), Event.lockAcq, Event.lockRel] := by
    unfold XScope.attemptStep
    rw [if_neg (by simpa using hne), abortStep_contention sc s (env i) hca]
    simp [XScope.StepOut.withTr]
  constructor
  · simp only [XScope.enterGo, hstep]
    simp
  · simp only [XScope.enterGo, hstep]
    simp

/-- C3 witness: a concrete contention abort with one attempt available
waits and then falls back through loop exhaustion. -/
theorem C3_contention_wait_then_loop_witness :
    XScope.enterGo boolScope (fun _ => contentionStatus) 1 0 false =
      (Mode.locked, true,
        [Event.xbegin contentionStatus, Event.lockAcq, Event.lockRel,
          Event.lockAcq]) :=
  (C3_contention_wait_then_loop boolScope (fun _ => contentionStatus) 0 0
    false (by decide) (by decide) (by decide)).2

/-- C4: an abort that is not the reserved contention abort and whose
retry hint is clear makes enter break out immediately — regardless of
how many attempts remain — and acquire the fallback lock, finishing in
locked mode; the second conjunct is the exhaustion case, where the loop
has no attempts left and the same unconditional acquisition runs. -/
theorem C4_no_retry_hint_falls_back (sc : XScope.Iface σ)
    (env : Nat → Nat) (i fuel : Nat) (s : σ)
    (hne : env i ≠ XBEGIN_STARTED)
    (hnc : ¬(env i &&& XABORT_EXPLICIT ≠ 0 ∧ XABORT_CODE (env i) = 255))
    (hnr : env i &&& XABORT_RETRY = 0) :
    XScope.enterGo sc env (fuel + 1) i s =
      (Mode.locked, sc.lockFallback s,
        [Event.xbegin (env i), Event.lockAcq]) ∧
    (∀ (j : Nat) (s2 : σ), XScope.enterGo sc env 0 j s2 =
      (Mode.locked, sc.lockFallback s2, [Event.lockAcq])) := by
  have hca : XScope.isContentionAbort (env i) = false := by
    cases h : XScope.isContentionAbort (env i)
    · rfl
    · exact absurd ((isContentionAbort_iff (env i)).1 h) hnc
  have hstep : XScope.attemptStep sc s (env i) =
      XScope.StepOut.brk s [Event.xbegin (env i)] := by
    unfold XScope.attemptStep XScope.abortStep
    rw [if_neg (by simpa using hne), hca]
    simp [XScope.StepOut.withTr, hnr]
  constructor
  · simp only [XScope.enterGo, hstep]
    simp
  · intro j s2
    rfl

/-- C4 witness: a concrete conflict abort (status 4: no explicit bit, no
retry hint) with two further attempts available still falls back at
once. -/
theorem C4_no_retry_hint_falls_back_witness :
    XScope.enterGo boolScope (fun _ => 4) 3 0 false =
      (Mode.locked, true, [Event.xbegin 4, Event.lockAcq]) :=
  (C4_no_retry_hint_falls_back boolScope (fun _ => 4) 0 2 false
    (by decide) (by decide) (by decide)).1

/-- C5: for every finite sequence of handlers registered through
registerCommitCallback, exit() produces first the single termination
event (the lock release or the transaction commit) and then exactly one
callback event per handler, in registration order — each callback runs
exactly once and only after the termination step. -/
theorem C5_callbacks_once_in_order_after_end (sc : XScope.Iface σ)
    (s : σ) (hs : List Nat) :
    ∃ t, (t = Event.lockRel ∨ t = Event.xendEv) ∧
      (XScope.exit sc s (hs.foldl XScope.registerCommitCallback [])).2 =
        t :: hs.map Event.callback := by
  rw [foldl_registerCommitCallback hs [], List.nil_append]
  by_cases h : sc.isFallbackLocked s
  · refine ⟨Event.lockRel, Or.inl rfl, ?_⟩
    simp [XScope.exit, h]
  · refine ⟨Event.xendEv, Or.inr rfl, ?_⟩
    simp [XScope.exit, h]

/-- C7 counterexample: with nretries 1 and contention aborts throughout,
enter performs three blocking lock acquisitions (one per contention
wait plus the final fallback), refuting "at most one blocking lock
acquisition over its entire execution". -/
theorem C7_three_blocking_acquisitions :
    countEv isLockAcqEv
      (XScope.enter boolScope 1 (fun _ => contentionStatus) false).2.2 = 3 ∧
    ¬ countEv isLockAcqEv
      (XScope.enter boolScope 1 (fun _ => contentionStatus) false).2.2 ≤ 1 :=
  ⟨rfl, by decide⟩

/-- C7 (amended): for every retry bound, enter executes at most
nretries+1 XBEGIN attempts and performs at most nretries+2 blocking lock
acquisitions (one per contention wait plus the final fallback); being a
total function of bounded fuel, it never loops unboundedly. -/
theorem C7_attempt_and_lock_bounds (sc : XScope.Iface σ)
    (nretries : Int) (env : Nat → Nat) (s : σ) :
    countEv isXbeginEv (XScope.enter sc nretries env s).2.2 ≤
      (nretries + 1).toNat ∧
    countEv isLockAcqEv (XScope.enter sc nretries env s).2.2 ≤
      (nretries + 1).toNat + 1 :=
  enterGo_counts sc env (nretries + 1).toNat 0 s

/-- C8: the contention-wait step (a lock acquisition inside the abort
classification) runs exactly when the abort status has the explicit bit
set and carries the reserved code 0xFF; an explicit abort with any other
code is classified as "other abort" — break to the fallback when the
retry hint is clear, plain retry when it is set. -/
theorem C8_abort_code_isolation (sc : XScope.Iface σ) (s : σ) (st : Nat) :
    (Event.lockAcq ∈ (XScope.abortStep sc s st).trace ↔
      (st &&& XABORT_EXPLICIT ≠ 0 ∧ XABORT_CODE st = 255)) ∧
    (st &&& XABORT_EXPLICIT ≠ 0 → XABORT_CODE st ≠ 255 →
      (st &&& XABORT_RETRY = 0 →
        XScope.abortStep sc s st = XScope.StepOut.brk s []) ∧
      (st &&& XABORT_RETRY ≠ 0 →
        XScope.abortStep sc s st = XScope.StepOut.cont s [])) := by
  by_cases hca : XScope.isContentionAbort st = true
  · have h1 := (isContentionAbort_iff st).1 hca
    rw [abortStep_contention sc s st hca]
    constructor
    · simp [XScope.StepOut.trace, h1]
    · intro _ hc
      exact absurd h1.2 hc
  · have hcaf : XScope.isContentionAbort st = false := by
      cases h : XScope.isContentionAbort st
      · rfl
      · exact absurd h hca
    have h2 : ¬(st &&& XABORT_EXPLICIT ≠ 0 ∧ XABORT_CODE st = 255) := by
      intro hc
      exact hca ((isContentionAbort_iff st).2 hc)
    constructor
    · constructor
      · intro hmem
        exfalso
        revert hmem
        unfold XScope.abortStep
        rw [hcaf]
        simp only [Bool.false_eq_true, if_false]
        split <;> simp [XScope.StepOut.trace]
      · intro hc
        exact absurd hc h2
    · intro _ _
      constructor
      · intro hr
        unfold XScope.abortStep
        rw [hcaf]
        simp [hr]
      · intro hr
        unfold XScope.abortStep
        rw [hcaf]
        simp [beq_iff_eq, hr]

/-- C8 witness: an explicit abort with user code 5 and retry hint clear
(status 1 + 5·2^24) is classified as "other abort" and breaks to the
fallback. -/
theorem C8_abort_code_isolation_witness :
    XScope.abortStep boolScope false 83886081 = XScope.StepOut.brk false [] :=
  ((C8_abort_code_isolation boolScope false 83886081).2
    (by decide) (by decide)).1 (by decide)

/-- C9: what the code exposes. The constructor XScope(LockType&) takes
only the fallback-lock reference and runs the entry protocol with the
built-in default retry bound 3, so a construction performs at most 4
XBEGIN attempts; there is no retry-count parameter on the constructor,
the bound is the default argument of enter(). -/
theorem C9_construct_uses_default_three (sc : XScope.Iface σ)
    (env : Nat → Nat) (s : σ) :
    XScope.construct sc env s = XScope.enter sc 3 env s ∧
    countEv isXbeginEv (XScope.construct sc env s).2.2 ≤ 4 :=
  ⟨rfl, (enterGo_counts sc env 4 0 s).1⟩

/-- C10: a negative retry bound makes the for-loop body unreachable
(attempt 0 already exceeds nretries), so enter executes no XBEGIN and no
lock-liveness query, and immediately acquires the fallback lock,
finishing in locked mode. -/
theorem C10_negative_retries_always_fallback (sc : XScope.Iface σ)
    (n : Int) (env : Nat → Nat) (s : σ) (hn : n < 0) :
    XScope.enter sc n env s =
      (Mode.locked, sc.lockFallback s, [Event.lockAcq]) ∧
    countEv isXbeginEv (XScope.enter sc n env s).2.2 = 0 ∧
    countEv isQueryEv (XScope.enter sc n env s).2.2 = 0 := by
  have h0 : (n + 1).toNat = 0 := by omega
  unfold XScope.enter
  rw [h0]
  exact ⟨rfl, rfl, rfl⟩

/-- C10 witness: enter with nretries -1 over the generic boolean lock
acquires the fallback immediately. -/
theorem C10_negative_retries_always_fallback_witness :
    XScope.enter boolScope (-1) (fun _ => XBEGIN_STARTED) false =
      (Mode.locked, true, [Event.lockAcq]) :=
  (C10_negative_retries_always_fallback boolScope (-1)
    (fun _ => XBEGIN_STARTED) false (by decide)).1

end xsync
